import Mathlib

/-!
Shallow embedding of the SAP IW32 long-text automation routine
(`src/app.py`) and proofs about it.

Modelling conventions:
- Python integers are `ℤ`, Python floats that the code only ever truncates
  or divides exactly are `ℚ`, Python strings are `String`.
- Spreadsheet cells (`pandas` values reaching `coerce_os_to_str`) are the
  inductive `CellValue` (missing/NaN, int, float, str).
- The SAP GUI session is modelled by the trace of scripting commands the
  routine issues (`Event`); `push_to_sap` returns that trace together with
  its result.
- Real time in `wait_not_busy` is modelled discretely: each `time.sleep(0.1)`
  advances the clock by 1/10 s and polls are instantaneous, so the k-th poll
  of the busy flag happens at elapsed time k/10 seconds.
-/

namespace SAPIW32

/-- SAP GUI element id `SAP_IDS["OKCD_ID"]`. -/
def OKCD_ID : String := "wnd[0]/tbar[0]/okcd"

/-- SAP GUI element id `SAP_IDS["OS_FIELD_ID"]`. -/
def OS_FIELD_ID : String := "wnd[0]/usr/ctxtCAUFVD-AUFNR"

/-- SAP GUI element id `SAP_IDS["TAB_OPERACOES_ID"]`. -/
def TAB_OPERACOES_ID : String :=
  "wnd[0]/usr/subSUB_ALL:SAPLCOIH:3001/ssubSUB_LEVEL:SAPLCOIH:110 7/tabsTS_1100/tabpVGUE"

/-- SAP GUI element id `SAP_IDS["TBL_PATH"]`. -/
def TBL_PATH : String :=
  "wnd[0]/usr/subSUB_ALL:SAPLCOIH:3001/ssubSUB_LEVEL:SAPLCOIH:110 7/tabsTS_1100/tabpVGUE/ssubSUB_AUFTRAG:SAPLCOVG:3010/tblSAPLCOVGTCTRL_3010"

/-- SAP GUI element id `SAP_IDS["BTN_TEXTO_LONGO_FMT"]`, with the `.format(row=...)`
substitution applied (Python `format` inserts `str(row)`). -/
def BTN_TEXTO_LONGO_FMT (row : ℤ) : String :=
  "wnd[0]/usr/subSUB_ALL:SAPLCOIH:3001/ssubSUB_LEVEL:SAPLCOIH:110 7/tabsTS_1100/tabpVGUE/ssubSUB_AUFTRAG:SAPLCOVG:3010/tblSAPLCOVGTCTRL_3010/btnLT ICON-LTOPR[8,"
    ++ toString row ++ "]"

/-- SAP GUI element id `SAP_IDS["LONGTEXT_SHELL_ID"]`. -/
def LONGTEXT_SHELL_ID : String := "wnd[0]/usr/cntlSCMSW_CONTAINER_2102/shellcont/shell"

/-- SAP GUI element id `SAP_IDS["BTN_BACK_ID"]`. -/
def BTN_BACK_ID : String := "wnd[0]/tbar[0]/btn[3]"

/-- SAP GUI element id `SAP_IDS["BTN_SAVE_ID"]`. -/
def BTN_SAVE_ID : String := "wnd[0]/tbar[0]/btn[11]"

/-- Constant `VISIBLE_ROWS_DEFAULT` from the source. -/
def VISIBLE_ROWS_DEFAULT : ℤ := 15

/-- The scroll position computed inside `ensure_visible`:
`scroll_pos = 0 if abs_row < visible_rows else abs_row - (visible_rows - 1)`. -/
def scroll_pos_of (abs_row visible_rows : ℤ) : ℤ :=
  if abs_row < visible_rows then 0 else abs_row - (visible_rows - 1)

/-- Function `ensure_visible(tbl, abs_row, visible_rows)`: the first component is the
value written to `tbl.VerticalScrollbar.Position`, the second is the returned
relative row `abs_row - scroll_pos`. -/
def ensure_visible (abs_row visible_rows : ℤ) : ℤ × ℤ :=
  (scroll_pos_of abs_row visible_rows, abs_row - scroll_pos_of abs_row visible_rows)

/-- A value arriving from a spreadsheet cell: missing (`pd.isna`), a Python
int, a Python float (modelled as an exact rational), or a string. -/
inductive CellValue
  | na : CellValue
  | intVal : ℤ → CellValue
  | floatVal : ℚ → CellValue
  | strVal : String → CellValue
  deriving DecidableEq

/-- Python `int(x)` on a float: truncation toward zero. -/
def pyTrunc (q : ℚ) : ℤ := if 0 ≤ q then ⌊q⌋ else ⌈q⌉

/-- Python `str.strip()`: remove whitespace from both ends, character-level. -/
def pyStrip (s : String) : String :=
  String.mk (((s.data.dropWhile Char.isWhitespace).reverse.dropWhile
    Char.isWhitespace).reverse)

/-- Python `s.endswith(".0")`, character-level. -/
def endsWithDot0 (l : List Char) : Bool :=
  match l.reverse with
  | '0' :: '.' :: _ => true
  | _ => false

/-- The inner `_conv` of `coerce_os_to_str`: missing → `""`, int → `str(x)`,
float → `str(int(x))`, anything else → `str(x).strip()` with a trailing
`".0"` removed (Python `s[:-2]`). -/
def conv_cell (x : CellValue) : String :=
  match x with
  | CellValue.na => ""
  | CellValue.intVal n => toString n
  | CellValue.floatVal q => toString (pyTrunc q)
  | CellValue.strVal s =>
      let t := pyStrip s
      if endsWithDot0 t.data then String.mk (t.data.take (t.data.length - 2)) else t

/-- Series coercion `coerce_os_to_str(series)`: applies `_conv` to every cell. -/
def coerce_os_to_str (xs : List CellValue) : List String := xs.map conv_cell

/-- The workable set built at `work = work[work["OS_str"] != ""]`: the coerced
identifiers with the empty ones filtered out. -/
def workable (xs : List CellValue) : List String :=
  (coerce_os_to_str xs).filter (fun s => decide (s ≠ ""))

/-- Replacement `texto.replace("\n", "\r\n")` at the character level (the pattern is a
single character, so a character-by-character rewrite is exact). -/
def normNewlines : List Char → List Char
  | [] => []
  | c :: rest =>
      if c = '\n' then '\r' :: '\n' :: normNewlines rest
      else c :: normNewlines rest

/-- The text `set_clipboard` stages: the input with every `"\n"` replaced by
`"\r\n"` (Python `(texto or "")` is the identity on the strings involved:
the empty string maps to the empty string either way). -/
def set_clipboard_norm (texto : String) : String :=
  String.mk (normNewlines texto.data)

/-- One clipboard API call issued by `set_clipboard`. -/
inductive ClipOp
  | openClip : ClipOp
  | emptyClip : ClipOp
  | setTextClip : String → ClipOp
  | closeClip : ClipOp
  deriving DecidableEq

/-- Model of `set_clipboard(texto)` as a trace of clipboard API calls, with the two
fallible calls inside the `try` block (`EmptyClipboard`, `SetClipboardText`)
given explicit success flags; the second component is the clipboard content
on success (`none` when the call raised). The `finally` clause closes the
clipboard on every path. -/
def set_clipboard (texto : String) (emptyOk setOk : Bool) :
    List ClipOp × Option String :=
  let t := set_clipboard_norm texto
  if emptyOk then
    if setOk then
      ([ClipOp.openClip, ClipOp.emptyClip, ClipOp.setTextClip t, ClipOp.closeClip], some t)
    else
      ([ClipOp.openClip, ClipOp.emptyClip, ClipOp.closeClip], none)
  else
    ([ClipOp.openClip, ClipOp.closeClip], none)

/-- Holds (as `true`) when every `'\n'` in the list is immediately preceded by
`'\r'`, scanning with `prev` as the character before the head. -/
def crlfOnlyFrom (prev : Char) : List Char → Bool
  | [] => true
  | c :: rest => (decide (c ≠ '\n') || decide (prev = '\r')) && crlfOnlyFrom c rest

/-- Holds (as `true`) when the text contains no orphan `'\n'`: none at the
start, and every later one immediately preceded by `'\r'` (the CRLF
convention). -/
def crlfOnly : List Char → Bool
  | [] => true
  | c :: rest => decide (c ≠ '\n') && crlfOnlyFrom c rest

/-- One scripting command issued by `push_to_sap` against the SAP GUI session
(or one callback invocation). -/
inductive Event
  | connect : ℤ → ℤ → Event
  | maximize : Event
  | logMsg : String → Event
  | setText : String → String → Event
  | setCaret : String → ℕ → Event
  | sendVKey : ℕ → Event
  | waitIdle : Event
  | selectTab : String → Event
  | findTable : String → Event
  | setScrollPos : ℤ → Event
  | pressLongText : ℤ → String → Event
  | setClip : String → Event
  | setDocum : String → Event
  | press : String → Event
  | progress : ℚ → Event
  deriving DecidableEq

/-- The outcome of a `push_to_sap` run: the trace of commands issued and the
Python-level result (`True`, or the raised error's message). -/
structure RunResult where
  events : List Event
  result : Except String Bool

/-- Model of `open_iw32_and_load_os(session, os_str)` as its command trace. -/
def open_iw32_and_load_os (os_str : String) : List Event :=
  [Event.setText OKCD_ID "/nIW32", Event.sendVKey 0, Event.waitIdle,
   Event.setText OS_FIELD_ID os_str, Event.setCaret OS_FIELD_ID os_str.length,
   Event.sendVKey 0, Event.waitIdle]

/-- The command trace of one iteration of the per-row loop of `push_to_sap`
(row index `i`, text `texto`): optional progress callback with
`(i+1)/max(total,1)`, scroll via `ensure_visible`, press the long-text
button at the relative row, stage the clipboard, `setDocum`, press back,
optional log line; a busy wait follows each press/`setDocum`. -/
def row_events (total : ℕ) (visible_rows : ℤ) (hp hl : Bool) (i : ℕ)
    (texto : String) : List Event :=
  (if hp then [Event.progress (((i : ℚ) + 1) / ((max total 1 : ℕ) : ℚ))] else []) ++
  [Event.setScrollPos (ensure_visible (i : ℤ) visible_rows).1,
   Event.pressLongText (ensure_visible (i : ℤ) visible_rows).2
     (BTN_TEXTO_LONGO_FMT (ensure_visible (i : ℤ) visible_rows).2),
   Event.waitIdle,
   Event.setClip (set_clipboard_norm texto),
   Event.setDocum LONGTEXT_SHELL_ID,
   Event.waitIdle,
   Event.press BTN_BACK_ID,
   Event.waitIdle] ++
  (if hl then
    [Event.logMsg ("Linha " ++ toString (i + 1) ++ "/" ++ toString total
      ++ ": texto longo aplicado.")]
   else [])

/-- Model of `push_to_sap(...)` as a trace-producing function. `isWindows` models
`platform.system().lower().startswith("win")`; `hp` and `hl` model whether
`progress_cb` and `log_cb` were supplied. On a non-Windows platform the
routine raises before issuing any command. -/
def push_to_sap (isWindows : Bool) (os_str : String) (long_texts : List String)
    (visible_rows : ℤ) (save_after : Bool) (connection_index session_index : ℤ)
    (hp hl : Bool) : RunResult :=
  if isWindows then
    { events :=
        [Event.connect connection_index session_index, Event.maximize] ++
        (if hl then [Event.logMsg ("Abrindo IW32 e carregando OS " ++ os_str ++ "...")]
         else []) ++
        open_iw32_and_load_os os_str ++
        [Event.selectTab TAB_OPERACOES_ID, Event.waitIdle, Event.findTable TBL_PATH] ++
        List.flatten (long_texts.mapIdx
          (fun i texto => row_events long_texts.length visible_rows hp hl i texto)) ++
        (if save_after then
          (if hl then [Event.logMsg "Salvando a ordem..."] else []) ++
          [Event.press BTN_SAVE_ID, Event.waitIdle]
         else []) ++
        (if hp then [Event.progress 1] else []),
      result := Except.ok true }
  else
    { events := [],
      result := Except.error "Este envio ao SAP requer Windows (SAP GUI + COM)." }

/-- Holds exactly on the back-press command. -/
def is_back (e : Event) : Bool :=
  match e with
  | Event.press id => id == BTN_BACK_ID
  | _ => false

/-- Holds exactly on the save-press command. -/
def is_save (e : Event) : Bool :=
  match e with
  | Event.press id => id == BTN_SAVE_ID
  | _ => false

/-- Holds exactly on a scroll command. -/
def is_scroll (e : Event) : Bool :=
  match e with
  | Event.setScrollPos _ => true
  | _ => false

/-- Holds exactly on a progress callback invocation carrying value `q`. -/
def is_progress_val (q : ℚ) (e : Event) : Bool :=
  match e with
  | Event.progress p => p == q
  | _ => false

/-- The suffix of the trace strictly after the `n`-th (0-based) back-press;
empty when there are not that many back-presses. -/
def drop_through_backs : ℕ → List Event → List Event
  | _, [] => []
  | n, e :: tr =>
      if is_back e then
        match n with
        | 0 => tr
        | m + 1 => drop_through_backs m tr
      else drop_through_backs n tr

/-- The prefix of the trace strictly before the `n`-th (0-based) scroll
command (the whole trace when there are not that many scrolls). -/
def take_until_scroll : ℕ → List Event → List Event
  | _, [] => []
  | n, e :: tr =>
      if is_scroll e then
        match n with
        | 0 => []
        | m + 1 => e :: take_until_scroll m tr
      else e :: take_until_scroll n tr

/-- The scroll positions written to the table, in trace order. -/
def scroll_positions (tr : List Event) : List ℤ :=
  tr.filterMap fun e =>
    match e with
    | Event.setScrollPos p => some p
    | _ => none

/-- The relative rows at which the long-text button was pressed, in trace order. -/
def rel_rows (tr : List Event) : List ℤ :=
  tr.filterMap fun e =>
    match e with
    | Event.pressLongText r _ => some r
    | _ => none

/-- The (relative row, scroll position) pairs produced across the iterations:
each loop iteration writes exactly one scroll position and presses exactly one
long-text button, in that order. -/
def row_pairs (tr : List Event) : List (ℤ × ℤ) :=
  (rel_rows tr).zip (scroll_positions tr)

/-- The values passed to the progress callback, in trace order. -/
def progress_values (tr : List Event) : List ℚ :=
  tr.filterMap fun e =>
    match e with
    | Event.progress q => some q
    | _ => none

/-- The claim that for every row `i < total` some invocation of the progress
callback with value `(i+1)/total` happens strictly after row `i`'s back-press
(the last command of row `i`'s cycle). -/
def progress_after_cycle (tr : List Event) (total : ℕ) : Bool :=
  (List.range total).all fun i =>
    (drop_through_backs i tr).any (is_progress_val (((i : ℚ) + 1) / (total : ℚ)))

/-- For every row `i < total`, some invocation of the progress callback with
the value the code computes, `(i+1)/max(total,1)`, happens strictly before
row `i`'s scroll command (the first command of row `i`'s cycle). -/
def progress_before_cycle (tr : List Event) (total : ℕ) : Bool :=
  (List.range total).all fun i =>
    (take_until_scroll i tr).any
      (is_progress_val (((i : ℚ) + 1) / ((max total 1 : ℕ) : ℚ)))

/-- The concrete end-to-end run used by the spec's example: 3 rows of text,
`visible_rows = 2`, on Windows, with both callbacks supplied. -/
def run3 : List Event :=
  (push_to_sap true "6000794541" ["a", "b", "c"] 2 true 0 0 true true).events

/-- The result of one call to `wait_not_busy`: normal return or a raised
`TimeoutError`, each recording how many times the busy flag was polled
before (the `k`-th poll happens at elapsed time `k/10` seconds). -/
inductive WaitOutcome
  | ok : ℕ → WaitOutcome
  | timedOut : ℕ → WaitOutcome
  deriving DecidableEq

/-- The polling loop of `wait_not_busy`, fuel-indexed: at poll `k` (elapsed
time `k/10` s), if the session is busy and the elapsed time exceeds the
budget, raise; if busy within budget, sleep 0.1 s and poll again; if not
busy, return. -/
def wait_not_busy_aux (busy : ℕ → Bool) (budget : ℚ) : ℕ → ℕ → WaitOutcome
  | 0, k => WaitOutcome.timedOut k
  | fuel + 1, k =>
      if busy k then
        if (k : ℚ) / 10 > budget then WaitOutcome.timedOut k
        else wait_not_busy_aux busy budget fuel (k + 1)
      else WaitOutcome.ok k

/-- Model of `wait_not_busy(session, timeout)` with the busy flag sampled as a function
of the poll number; the fuel bounds the polls at one more than the budget
allows, so it is never what decides the outcome. -/
def wait_not_busy (busy : ℕ → Bool) (budget : ℚ) : WaitOutcome :=
  wait_not_busy_aux busy budget (⌈budget⌉.toNat * 10 + 2) 0

/-- Filtering on non-emptiness leaves no empty string behind. -/
theorem filter_no_empty (l : List String) :
    ((l.filter (fun s => decide (s ≠ ""))).any (fun s => decide (s = ""))) = false := by
  induction l with
  | nil => rfl
  | cons a l ih => by_cases ha : a = "" <;> simp [List.filter_cons, ha, ih]

/-- After `normNewlines`, scanning from any previous character finds no orphan
line feed. -/
theorem crlfOnlyFrom_normNewlines (l : List Char) :
    ∀ prev, crlfOnlyFrom prev (normNewlines l) = true := by
  induction l with
  | nil => intro prev; rfl
  | cons c rest ih =>
      intro prev
      by_cases hc : c = '\n'
      · subst hc; simp [normNewlines, crlfOnlyFrom, ih]
      · simp [normNewlines, hc, crlfOnlyFrom, ih]

/-- After `normNewlines`, every line feed is immediately preceded by a
carriage return. -/
theorem crlfOnly_normNewlines (l : List Char) : crlfOnly (normNewlines l) = true := by
  cases l with
  | nil => rfl
  | cons c rest =>
      by_cases hc : c = '\n'
      · subst hc; simp [normNewlines, crlfOnly, crlfOnlyFrom, crlfOnlyFrom_normNewlines]
      · simp [normNewlines, crlfOnly, hc, crlfOnlyFrom_normNewlines]

/-- Poll `k` breaches the 60 s budget exactly when `k > 600`. -/
theorem elapsed_gt (k : ℕ) : ((k : ℚ) / 10 > 60) ↔ 600 < k := by
  rw [gt_iff_lt, lt_div_iff₀ (by norm_num : (0 : ℚ) < 10)]
  norm_cast

/-- With the busy flag never clearing, the polling loop (with enough fuel)
raises at poll 601, the first poll whose elapsed time exceeds 60 s. -/
theorem wait_not_busy_aux_all_busy (busy : ℕ → Bool) (hb : ∀ j, busy j = true) :
    ∀ fuel k : ℕ, k ≤ 601 → 602 ≤ k + fuel →
      wait_not_busy_aux busy 60 fuel k = WaitOutcome.timedOut 601 := by
  intro fuel
  induction fuel with
  | zero => intro k hk hf; omega
  | succ fuel ih =>
      intro k hk hf
      simp only [wait_not_busy_aux, hb k, if_true]
      by_cases h6 : 600 < k
      · have hk601 : k = 601 := by omega
        subst hk601
        rw [if_pos ((elapsed_gt 601).mpr (by norm_num))]
      · rw [if_neg (fun hgt => h6 ((elapsed_gt k).mp hgt))]
        exact ih (k + 1) (by omega) (by omega)

/-- If the busy flag first clears at poll `k0 ≤ 601`, the polling loop (with
enough fuel) returns normally at exactly that poll. -/
theorem wait_not_busy_aux_ok (busy : ℕ → Bool) (k0 : ℕ)
    (hk0 : k0 ≤ 601) (hb : ∀ j, j < k0 → busy j = true) (h0 : busy k0 = false) :
    ∀ fuel k : ℕ, k ≤ k0 → k0 < k + fuel →
      wait_not_busy_aux busy 60 fuel k = WaitOutcome.ok k0 := by
  intro fuel
  induction fuel with
  | zero => intro k hk hf; omega
  | succ fuel ih =>
      intro k hk hf
      by_cases hkk : k = k0
      · subst hkk
        simp only [wait_not_busy_aux, h0]
        simp
      · have hklt : k < k0 := by omega
        simp only [wait_not_busy_aux, hb k hklt, if_true]
        rw [if_neg (fun hgt => absurd ((elapsed_gt k).mp hgt) (by omega))]
        exact ih (k + 1) (by omega) (by omega)

/-- The fuel supplied by `wait_not_busy` for the default 60 s budget. -/
theorem wait_not_busy_fuel_60 : (⌈(60 : ℚ)⌉.toNat * 10 + 2) = 602 := by
  have h : ⌈(60 : ℚ)⌉ = 60 := by norm_num
  rw [h]
  rfl

/-- C1: for every `absoluteRow ≥ 0` and `visibleRows > 0`, `ensure_visible`
computes `scrollPosition = 0` when `absoluteRow < visibleRows` and
`absoluteRow - (visibleRows - 1)` otherwise, returns the relative row
`absoluteRow - scrollPosition`, which lies in `[0, visibleRows)`, with
`scrollPosition ≥ 0`; with `visibleRows = 15` and `absoluteRow = 100` it
yields scroll position 86 and relative row 14. -/
theorem ensure_visible_spec (a v : ℤ) (ha : 0 ≤ a) (hv : 0 < v) :
    (ensure_visible a v).1 = (if a < v then 0 else a - (v - 1)) ∧
    (ensure_visible a v).2 = a - (ensure_visible a v).1 ∧
    0 ≤ a - (ensure_visible a v).1 ∧
    a - (ensure_visible a v).1 < v ∧
    0 ≤ (ensure_visible a v).1 ∧
    ensure_visible 100 15 = (86, 14) := by
  refine ⟨rfl, rfl, ?_, ?_, ?_, by decide⟩ <;>
    simp only [ensure_visible, scroll_pos_of] <;> split <;> omega

/-- Witness for C1 at `absoluteRow = 100`, `visibleRows = 15`. -/
theorem ensure_visible_spec_witness :
    (0 : ℤ) ≤ 100 ∧ (0 : ℤ) < 15 ∧
    0 ≤ (100 : ℤ) - (ensure_visible 100 15).1 ∧
    (100 : ℤ) - (ensure_visible 100 15).1 < 15 ∧
    ensure_visible 100 15 = (86, 14) :=
  ⟨by decide, by decide,
   (ensure_visible_spec 100 15 (by decide) (by decide)).2.2.1,
   (ensure_visible_spec 100 15 (by decide) (by decide)).2.2.2.1,
   (ensure_visible_spec 100 15 (by decide) (by decide)).2.2.2.2.2⟩

/-- C6: for every fixed `visibleRows > 0` the scroll position computed by
`ensure_visible` is monotone non-decreasing in the absolute row, so
processing rows in increasing order never scrolls the table backward. -/
theorem ensure_visible_monotone (v a1 a2 : ℤ) (_hv : 0 < v) (h : a1 ≤ a2) :
    (ensure_visible a1 v).1 ≤ (ensure_visible a2 v).1 := by
  simp only [ensure_visible, scroll_pos_of]
  split <;> split <;> omega

/-- Witness for C6 at `visibleRows = 15`, rows 10 and 100. -/
theorem ensure_visible_monotone_witness :
    (0 : ℤ) < 15 ∧ (10 : ℤ) ≤ 100 ∧
    (ensure_visible 10 15).1 ≤ (ensure_visible 100 15).1 :=
  ⟨by decide, by decide, ensure_visible_monotone 15 10 100 (by decide) (by decide)⟩

/-- C3: the identifier coercion maps the float `6000794541.0` to the string
`"6000794541"`, leaves the string `"6000794541"` unchanged, maps a missing
(NaN) cell to the empty string, and the workable set built from the coerced
identifiers contains no empty identifier. -/
theorem coerce_os_spec :
    conv_cell (CellValue.floatVal 6000794541) = "6000794541" ∧
    conv_cell (CellValue.strVal "6000794541") = "6000794541" ∧
    conv_cell CellValue.na = "" ∧
    ∀ xs : List CellValue, (workable xs).any (fun s => decide (s = "")) = false :=
  ⟨by rfl, by rfl, rfl, fun xs => filter_no_empty (coerce_os_to_str xs)⟩

/-- C10: on every (non-NaN) float cell the coercion stringifies the
truncation toward zero of the value: the truncation never exceeds the value
in magnitude, is within one of it, never flips the sign, and the cell
`6000794541.9` is silently coerced to `"6000794541"` (and `-2.9` to `"-2"`),
neither rejected nor rounded. -/
theorem conv_float_truncates :
    (∀ q : ℚ, conv_cell (CellValue.floatVal q) = toString (pyTrunc q) ∧
      |(pyTrunc q : ℚ)| ≤ |q| ∧ |q| < |(pyTrunc q : ℚ)| + 1 ∧
      0 ≤ (pyTrunc q : ℚ) * q) ∧
    conv_cell (CellValue.floatVal (60007945419 / 10)) = "6000794541" ∧
    conv_cell (CellValue.floatVal (-(29 / 10))) = "-2" := by
  have habs : ∀ q : ℚ, |(pyTrunc q : ℚ)| ≤ |q| ∧ |q| < |(pyTrunc q : ℚ)| + 1 ∧
      0 ≤ (pyTrunc q : ℚ) * q := by
    intro q
    unfold pyTrunc
    by_cases hq : 0 ≤ q
    · rw [if_pos hq]
      have h0 : (0 : ℚ) ≤ (⌊q⌋ : ℚ) := by exact_mod_cast Int.floor_nonneg.mpr hq
      refine ⟨?_, ?_, mul_nonneg h0 hq⟩
      · rw [abs_of_nonneg hq, abs_of_nonneg h0]
        exact Int.floor_le q
      · rw [abs_of_nonneg hq, abs_of_nonneg h0]
        exact Int.lt_floor_add_one q
    · rw [if_neg hq]
      have hq0 : q ≤ 0 := le_of_not_le hq
      have hc : (⌈q⌉ : ℚ) ≤ 0 := by
        have h1 : ⌈q⌉ ≤ (0 : ℤ) := Int.ceil_le.mpr (by exact_mod_cast hq0)
        exact_mod_cast h1
      have hlc := Int.le_ceil q
      refine ⟨?_, ?_, by nlinarith⟩
      · rw [abs_of_nonpos hq0, abs_of_nonpos hc]
        linarith
      · rw [abs_of_nonpos hq0, abs_of_nonpos hc]
        have := Int.ceil_lt_add_one q
        linarith
  have h1 : pyTrunc ((60007945419 : ℚ) / 10) = 6000794541 := by norm_num [pyTrunc]
  have h2 : pyTrunc (-((29 : ℚ) / 10)) = -2 := by
    unfold pyTrunc
    rw [if_neg (by norm_num), Int.ceil_neg]
    norm_num
  refine ⟨fun q => ⟨rfl, habs q⟩, ?_, ?_⟩
  · show toString (pyTrunc ((60007945419 : ℚ) / 10)) = "6000794541"
    rw [h1]
    rfl
  · show toString (pyTrunc (-((29 : ℚ) / 10))) = "-2"
    rw [h2]
    rfl

/-- C7: the clipboard bridge rewrites every line feed to a carriage-return +
line-feed pair before writing (so the staged text has no orphan line feed),
stages exactly that text on success, and on every path — including when
emptying or setting the clipboard fails — the scoped acquisition opens the
clipboard first and closes it last. -/
theorem set_clipboard_spec :
    (∀ (texto : String) (emptyOk setOk : Bool),
      (set_clipboard texto emptyOk setOk).1.head? = some ClipOp.openClip ∧
      (set_clipboard texto emptyOk setOk).1.getLast? = some ClipOp.closeClip) ∧
    (∀ texto : String,
      (set_clipboard texto true true).2 = some (set_clipboard_norm texto) ∧
      crlfOnly (set_clipboard_norm texto).data = true) ∧
    set_clipboard_norm "a\nb" = "a\r\nb" := by
  refine ⟨fun texto emptyOk setOk => ?_, fun texto => ⟨rfl, ?_⟩, rfl⟩
  · cases emptyOk <;> cases setOk <;> exact ⟨rfl, rfl⟩
  · exact crlfOnly_normNewlines texto.data

/-- C4: under the discrete-time model (each sleep advances the clock 100 ms,
polls are instantaneous), `wait_not_busy` with the default 60 s budget
raises a timeout on a never-clearing busy flag at poll 601 — elapsed time
60.1 s, strictly past the budget but within one polling interval of it —
and returns at exactly the first poll at which the flag reads false. -/
theorem wait_not_busy_spec :
    (∀ busy : ℕ → Bool, (∀ j, busy j = true) →
      wait_not_busy busy 60 = WaitOutcome.timedOut 601 ∧
      (60 : ℚ) < (601 : ℚ) / 10 ∧ (601 : ℚ) / 10 ≤ 60 + 1 / 10) ∧
    (∀ (busy : ℕ → Bool) (k0 : ℕ), k0 ≤ 601 → (∀ j, j < k0 → busy j = true) →
      busy k0 = false → wait_not_busy busy 60 = WaitOutcome.ok k0) := by
  constructor
  · intro busy hb
    refine ⟨?_, by norm_num, by norm_num⟩
    rw [wait_not_busy, wait_not_busy_fuel_60]
    exact wait_not_busy_aux_all_busy busy hb 602 0 (by omega) (by omega)
  · intro busy k0 hk0 hb h0
    rw [wait_not_busy, wait_not_busy_fuel_60]
    exact wait_not_busy_aux_ok busy k0 hk0 hb h0 602 0 (by omega) (by omega)

/-- Witness for C4: a flag that never clears times out at poll 601; a flag
that clears at poll 3 returns at poll 3. -/
theorem wait_not_busy_spec_witness :
    wait_not_busy (fun _ => true) 60 = WaitOutcome.timedOut 601 ∧
    wait_not_busy (fun k => decide (k < 3)) 60 = WaitOutcome.ok 3 :=
  ⟨(wait_not_busy_spec.1 (fun _ => true) (fun _ => rfl)).1,
   wait_not_busy_spec.2 (fun k => decide (k < 3)) 3 (by decide) (by decide) (by decide)⟩

/-- C5: in the run with 3 rows of text and `visibleRows = 2`, the sequence of
(relative row, scroll position) pairs produced across the iterations is
exactly `(0,0), (1,0), (1,1)` in that order. -/
theorem row_pairs_3rows_2visible :
    row_pairs run3 = [(0, 0), (1, 0), (1, 1)] := by decide

/-- C2 counterexample: in the concrete 3-row run, it is false that for each
row an invocation of the progress callback with value `(i+1)/total` occurs
after row `i`'s full cycle (the callback fires before the cycle, at the top
of the loop body). -/
theorem progress_not_after_cycle : progress_after_cycle run3 3 = false := by
  have hr : List.range 3 = [0, 1, 2] := rfl
  norm_num [progress_after_cycle, hr, run3, push_to_sap, row_events,
    open_iw32_and_load_os, drop_through_backs, is_back, is_progress_val,
    ensure_visible, scroll_pos_of, beq_iff_eq, beq_eq_false_iff_ne]

/-- C2 (amended): in the 3-row run the progress callback is invoked at the
start of each row's iteration — before the row's scroll/open/paste/return
cycle — with values `1/3, 2/3, 1` in order, followed by a final `1` after
the loop. -/
theorem progress_values_and_position :
    progress_values run3 = [1 / 3, 2 / 3, 1, 1] ∧
    progress_before_cycle run3 3 = true := by
  constructor
  · simp [run3, push_to_sap, progress_values, row_events, open_iw32_and_load_os]
    norm_num
  · have hr : List.range 3 = [0, 1, 2] := rfl
    norm_num [progress_before_cycle, hr, run3, push_to_sap, row_events,
      open_iw32_and_load_os, take_until_scroll, is_scroll, is_progress_val,
      ensure_visible, scroll_pos_of, beq_iff_eq]

/-- C8: invoked with the platform check failing (non-Windows), `push_to_sap`
raises the platform-mismatch error having issued no command at all: no
session connection, no UI command, no clipboard access. -/
theorem push_to_sap_non_windows (os : String) (texts : List String) (v : ℤ)
    (save : Bool) (ci si : ℤ) (hp hl : Bool) :
    (push_to_sap false os texts v save ci si hp hl).events = [] ∧
    (push_to_sap false os texts v save ci si hp hl).result =
      Except.error "Este envio ao SAP requer Windows (SAP GUI + COM)." :=
  ⟨rfl, rfl⟩

/-- C9: with an empty list of text payloads the per-row loop never runs (no
scroll, no long-text press), the run still connects, navigates into IW32,
selects the operations tab, presses save exactly when asked, ends with a
final progress report of `1.0`, returns `True`, and the guarded progress
denominator `max(total, 1)` equals 1, so no division by zero can occur. -/
theorem push_to_sap_empty_rows (os : String) (v ci si : ℤ) (save hl : Bool) :
    (push_to_sap true os [] v save ci si true hl).result = Except.ok true ∧
    scroll_positions (push_to_sap true os [] v save ci si true hl).events = [] ∧
    rel_rows (push_to_sap true os [] v save ci si true hl).events = [] ∧
    Event.setText OKCD_ID "/nIW32" ∈ (push_to_sap true os [] v save ci si true hl).events ∧
    Event.selectTab TAB_OPERACOES_ID ∈ (push_to_sap true os [] v save ci si true hl).events ∧
    (push_to_sap true os [] v save ci si true hl).events.any is_save = save ∧
    (push_to_sap true os [] v save ci si true hl).events.getLast? =
      some (Event.progress 1) ∧
    ((max (List.length ([] : List String)) 1 : ℕ) : ℚ) = 1 := by
  cases save <;> cases hl <;>
    refine ⟨rfl, rfl, rfl, ?_, ?_, rfl, rfl, by norm_num⟩ <;>
      simp [push_to_sap, open_iw32_and_load_os]

end SAPIW32
